import Mathlib

/-!
Shallow embedding of the JumpEgg simulation core (`src/granite.config.ts`).
Numbers are modelled as rationals; `Math.random()` draws and the
trigonometric functions (which only feed cosmetic particle velocities) are
supplied by an explicit per-tick environment oracle.  JavaScript object
identity of platforms is modelled by a `pid : ℕ` field drawn from a fresh
counter `nextPid` carried in the state.
-/

namespace JumpEgg

/-- Viewport width (`W = 400`). -/
def W : ℚ := 400

/-- Viewport height (`H = 650`). -/
def H : ℚ := 650

/-- Per-frame gravity (`GRAVITY = 0.28`). -/
def GRAVITY : ℚ := 28/100

/-- Maximum jump velocity (`MAX_JUMP_VEL = 11.5`). -/
def MAX_JUMP_VEL : ℚ := 115/10

/-- Vertical gap between generated platforms (`PLATFORM_GAP = 80`). -/
def PLATFORM_GAP : ℚ := 80

/-- Climber radius (`EGG_R = 18`). -/
def EGG_R : ℚ := 18

/-- One evolution stage of the `STAGES` table. -/
structure Stage where
  emoji : String
  sname : String
  need : ℤ
  color : String
deriving DecidableEq, Repr

/-- The `STAGES` table (experience thresholds of the evolution ladder). -/
def STAGES : List Stage :=
  [⟨"🥚", "알", 0, "#F9E4B7"⟩,
   ⟨"🐣", "병아리", 15, "#FFEB3B"⟩,
   ⟨"🐥", "아기새", 40, "#FFC107"⟩,
   ⟨"🐔", "닭", 75, "#FF9800"⟩,
   ⟨"🦅", "독수리", 120, "#8D6E63"⟩,
   ⟨"🐉", "드래곤", 180, "#E53935"⟩,
   ⟨"🔥", "피닉스", 260, "#FFD700"⟩]

/-- `getStage(jumps)` : scan the stage table from the top down and return the
first index whose threshold is met, defaulting to 0. -/
def getStage (jumps : ℤ) : ℕ :=
  (((List.range STAGES.length).reverse).find? fun i =>
    decide (jumps ≥ (STAGES.getD i ⟨"", "", 0, ""⟩).need)).getD 0

/-- Platform hazard variants (`"normal" | "timed" | "fragile"`). -/
inductive PType where
  | normal
  | timed
  | fragile
deriving DecidableEq, Repr

/-- A platform of the world column.  `pid` models JavaScript object identity
(the source holds platforms as mutable objects referenced by the climber). -/
structure Platform where
  x : ℚ
  y : ℚ
  w : ℚ
  h : ℚ
  speed : ℚ
  hue : ℕ
  ptype : PType
  timer : ℚ
  landed : Bool
  removing : Bool
  pid : ℕ
deriving DecidableEq, Repr

/-- The `Math.random()` draws consumed by one `createPlatform` call. -/
structure PlatRand where
  rWidth : ℚ
  rJitter : ℚ
  rSign : ℚ
  rRoll : ℚ
  rX : ℚ
deriving DecidableEq, Repr

/-- `createPlatform(y, index)` with its random draws made explicit; `pid` is
the fresh identity assigned by the caller. -/
def createPlatform (r : PlatRand) (y : ℚ) (index : ℕ) (pid : ℕ) : Platform :=
  let heightM : ℤ := max 0 ⌊(540 - y) / 12⌋
  let widthBase : ℚ := max 50 (130 - (heightM : ℚ) * (35/100))
  let widthVariance : ℚ := max 10 (25 - (heightM : ℚ) * (8/100))
  let w : ℚ := widthBase + r.rWidth * widthVariance
  let baseSpeed : ℚ := 6/10 + min (12/10) ((heightM : ℚ) * (8/1000))
  let zigzag : ℚ := if index % 2 = 0 then 6/10 else 1
  let speed : ℚ :=
    baseSpeed * zigzag * (8/10 + r.rJitter * (4/10)) * (if r.rSign > 1/2 then 1 else -1)
  let ptype : PType :=
    if heightM ≥ 15 then
      let timedChance : ℚ := min (18/100) (((heightM : ℚ) - 15) * (3/1000))
      let fragileChance : ℚ := min (15/100) (((heightM : ℚ) - 15) * (2/1000))
      if r.rRoll < timedChance then PType.timed
      else if r.rRoll < timedChance + fragileChance then PType.fragile
      else PType.normal
    else PType.normal
  { x := 30 + r.rX * (W - 60 - w)
    y := y
    w := w
    h := 11
    speed := speed
    hue := if ptype = PType.timed then 0 else if ptype = PType.fragile then 270 else (index * 37) % 360
    ptype := ptype
    timer := if ptype = PType.timed then 300 else 0
    landed := false
    removing := false
    pid := pid }

/-- The climber (`egg`); `onPlatform` holds the `pid` of the supporting
platform, mirroring the source's object reference. -/
structure Egg where
  x : ℚ
  y : ℚ
  vx : ℚ
  vy : ℚ
  onPlatform : Option ℕ
deriving DecidableEq, Repr

/-- A flying obstacle (`bird`). -/
structure Bird where
  x : ℚ
  y : ℚ
  speed : ℚ
  frame : ℚ
deriving DecidableEq, Repr

/-- A cosmetic particle. -/
structure Particle where
  x : ℚ
  y : ℚ
  vx : ℚ
  vy : ℚ
  life : ℚ
  maxLife : ℚ
  size : ℚ
  hue : ℚ
deriving DecidableEq, Repr

/-- The random draws consumed by creating one particle (up to six). -/
structure PartRand where
  a : ℚ
  b : ℚ
  c : ℚ
  d : ℚ
  e : ℚ
  f : ℚ
deriving DecidableEq, Repr

/-- The power meter (`power`). -/
structure Power where
  value : ℚ
  dir : ℚ
  speed : ℚ
deriving DecidableEq, Repr

/-- A landing-feedback cue (`landingFx`). -/
structure Fx where
  x : ℚ
  y : ℚ
  timer : ℚ
  text : String
deriving DecidableEq, Repr

/-- The game-state enum. -/
inductive GState where
  | idle
  | charging
  | jumping
  | gameover
deriving DecidableEq, Repr

/-- The whole simulation state (the `game.current` ref).  `camera` is the
camera's vertical offset `camera.y`; `nextPid` is the fresh-identity counter
modelling JavaScript object allocation. -/
structure Game where
  state : GState
  egg : Egg
  platforms : List Platform
  camera : ℚ
  power : Power
  score : ℤ
  highScore : ℤ
  xp : ℚ
  xpDecayTimer : ℚ
  stageIdx : ℕ
  prevStageIdx : ℕ
  particles : List Particle
  birds : List Bird
  birdTimer : ℚ
  perfectFlash : ℚ
  landingFx : Option Fx
  heightReached : ℚ
  highestPlatformY : ℚ
  nextPid : ℕ
deriving DecidableEq, Repr

/-- Per-call oracle for all `Math.random()` draws, plus `Math.cos`, `Math.sin`
and `Math.PI` (these only enter cosmetic particle velocities, so they are
environment-supplied rather than modelled as real numbers). -/
structure Env where
  plat : ℕ → PlatRand
  birdY : ℚ
  birdSpeed : ℚ
  hit : ℕ → ℕ → PartRand
  demote : ℕ → PartRand
  trailGate : ℚ
  trail : PartRand
  land : ℕ → PartRand
  evolve : ℕ → PartRand
  perfect : ℕ → PartRand
  ring : ℕ → PartRand
  normalJump : ℕ → PartRand
  qcos : ℚ → ℚ
  qsin : ℚ → ℚ
  piQ : ℚ

/-- Look a platform up by identity, mirroring a JavaScript object-reference
dereference into the current column. -/
def findPlat (ps : List Platform) (k : ℕ) : Option Platform :=
  ps.find? fun p => p.pid = k

/-- `initGame()` : reinitialize the run.  The previous state is passed in
because `highScore` is preserved (and the identity counter keeps growing). -/
def initGame (env : Env) (g : Game) : Game :=
  let seed : Platform :=
    { x := W/2 - 90, y := 540, w := 180, h := 11, speed := 0, hue := 140
      ptype := PType.normal, timer := 0, landed := false, removing := false
      pid := g.nextPid }
  let platforms : List Platform :=
    seed :: (List.range 25).map fun j =>
      createPlatform (env.plat (j + 1)) (540 - ((j : ℚ) + 1) * PLATFORM_GAP) (j + 1)
        (g.nextPid + 1 + j)
  { state := GState.idle
    egg := { x := W/2, y := 540 - EGG_R, vx := 0, vy := 0, onPlatform := some seed.pid }
    platforms := platforms
    camera := 0
    power := { value := 50, dir := 1, speed := 16/10 }
    score := 0
    highScore := g.highScore
    xp := 0
    xpDecayTimer := 0
    stageIdx := 0
    prevStageIdx := 0
    particles := []
    birds := []
    birdTimer := 0
    perfectFlash := 0
    landingFx := none
    heightReached := 540
    highestPlatformY := 540
    nextPid := g.nextPid + 26 }

/-- The initial mounted ref object (lines 103-122); `initGame` runs over it
before the first frame. -/
def g0 : Game :=
  { state := GState.idle
    egg := { x := W/2, y := 0, vx := 0, vy := 0, onPlatform := none }
    platforms := []
    camera := 0
    power := { value := 50, dir := 1, speed := 16/10 }
    score := 0
    highScore := 0
    xp := 0
    xpDecayTimer := 0
    stageIdx := 0
    prevStageIdx := 0
    particles := []
    birds := []
    birdTimer := 0
    perfectFlash := 0
    landingFx := none
    heightReached := 0
    highestPlatformY := 540
    nextPid := 0 }

/-- `startCharging()` : no-op unless idle; zero the meter and start charging. -/
def startCharging (g : Game) : Game :=
  if g.state ≠ GState.idle then g
  else
    { g with power := { g.power with value := 0, dir := 1 }, state := GState.charging }

/-- One particle of the perfect-release starburst (24 of them). -/
def perfectParticle (env : Env) (r : PartRand) (i : ℕ) (e : Egg) : Particle :=
  let angle : ℚ := ((i : ℚ) / 24) * env.piQ * 2
  let speed : ℚ := 3 + r.a * 4
  { x := e.x, y := e.y
    vx := env.qcos angle * speed
    vy := env.qsin angle * speed - 2
    life := 35 + r.b * 20
    maxLife := 55
    size := 3 + r.c * 5
    hue := 45 + r.d * 30 }

/-- One particle of the perfect-release sparkle ring (12 of them). -/
def ringParticle (env : Env) (r : PartRand) (i : ℕ) (e : Egg) : Particle :=
  let angle : ℚ := ((i : ℚ) / 12) * env.piQ * 2
  { x := e.x + env.qcos angle * 25
    y := e.y + env.qsin angle * 25
    vx := env.qcos angle * (15/10)
    vy := env.qsin angle * (15/10) - 1
    life := 25 + r.a * 15
    maxLife := 40
    size := 2 + r.b * 3
    hue := 180 + r.c * 60 }

/-- One particle of a normal (non-perfect) jump burst (6 of them). -/
def normalJumpParticle (r : PartRand) (e : Egg) : Particle :=
  { x := e.x + (r.a - 1/2) * 16
    y := e.y + EGG_R
    vx := (r.b - 1/2) * 3
    vy := r.c * 2 + 1
    life := 25 + r.d * 15
    maxLife := 40
    size := 2 + r.e * 3
    hue := 45 }

/-- `releaseJump()` : no-op unless charging; launch the climber with
power- and stage-scaled velocity, imparting 35% of the launch platform's
lateral speed; a fragile launch platform is removed at once; a near-max
power value is a "perfect" release (bonus experience and cosmetics). -/
def releaseJump (env : Env) (g : Game) : Game :=
  if g.state ≠ GState.charging then g
  else
    let power : ℚ := g.power.value / 100
    let stageBonus : ℚ := 1 + (g.stageIdx : ℚ) * (12/100)
    let jumpVel : ℚ := MAX_JUMP_VEL * max (15/100) power * stageBonus
    let onP : Option Platform := g.egg.onPlatform.bind (findPlat g.platforms)
    let platVx : ℚ :=
      match onP with
      | some p => p.speed * (35/100)
      | none => 0
    let platforms : List Platform :=
      match onP with
      | some p =>
          if p.ptype = PType.fragile then
            ((g.platforms.map fun q => if q.pid = p.pid then { q with removing := true } else q).filter
              fun q => ¬ q.removing)
          else g.platforms
      | none => g.platforms
    let egg : Egg := { g.egg with vy := -jumpVel, vx := platVx, onPlatform := none }
    let g : Game := { g with platforms := platforms, egg := egg, state := GState.jumping }
    if g.power.value ≥ 99 then
      { g with
        perfectFlash := 30
        xp := g.xp + 5
        particles :=
          (g.particles ++ (List.range 24).map fun i => perfectParticle env (env.perfect i) i egg) ++
            (List.range 12).map fun i => ringParticle env (env.ring i) i egg
        landingFx := some { x := egg.x, y := egg.y, timer := 40, text := "✨ PERFECT! +5 XP ✨" } }
    else
      { g with
        particles := g.particles ++ (List.range 6).map fun i => normalJumpParticle (env.normalJump i) egg }

/-- The loop's time-delta derivation:
`dt = Math.min((time - lastTime) / 16.67, 2.5)` (lines 256-258). -/
def dtOf (time lastTime : ℚ) : ℚ :=
  min ((time - lastTime) / (1667/100)) (5/2)

/-- Power-meter advance (lines 271-275): only while charging; bounce at 0/100. -/
def powerPhase (dt : ℚ) (g : Game) : Game :=
  if g.state = GState.charging then
    let v : ℚ := g.power.value + g.power.dir * g.power.speed * dt
    let vd : ℚ × ℚ := if v ≥ 100 then ((100 : ℚ), (-1 : ℚ)) else (v, g.power.dir)
    let vd : ℚ × ℚ := if vd.1 ≤ 0 then ((0 : ℚ), (1 : ℚ)) else vd
    { g with power := { g.power with value := vd.1, dir := vd.2 } }
  else g

/-- Per-platform motion with reflective side margins (lines 278-283). -/
def movePlat (dt : ℚ) (p : Platform) : Platform :=
  if p.speed = 0 then p
  else
    let x : ℚ := p.x + p.speed * dt
    let xs : ℚ × ℚ := if x ≤ 8 then ((8 : ℚ), |p.speed|) else (x, p.speed)
    let xs : ℚ × ℚ := if xs.1 + p.w ≥ W - 8 then (W - 8 - p.w, -|xs.2|) else xs
    { p with x := xs.1, speed := xs.2 }

/-- Timed-platform countdown loop (lines 286-300), iterating the live platform
array while mutating the climber and game state in place. -/
def timedLoop (dt : ℚ) (g : Game) : List Platform → Game × List Platform
  | [] => (g, [])
  | p :: ps =>
      if p.ptype = PType.timed ∧ p.landed = true ∧ g.egg.onPlatform = some p.pid then
        let t : ℚ := p.timer - dt
        if t ≤ 0 ∧ p.removing = false then
          let p : Platform := { p with timer := 0, removing := true }
          let g : Game :=
            if g.egg.onPlatform = some p.pid then
              { g with egg := { g.egg with onPlatform := none, vy := 0 }, state := GState.jumping }
            else g
          let r := timedLoop dt g ps
          (r.1, p :: r.2)
        else
          let p : Platform := { p with timer := t }
          let r := timedLoop dt g ps
          (r.1, p :: r.2)
      else
        let r := timedLoop dt g ps
        (r.1, p :: r.2)

/-- Meters-climbed discretization `Math.max(0, Math.floor((540 - y) / 12))`. -/
def meters (y : ℚ) : ℤ :=
  max 0 ⌊(540 - y) / 12⌋

/-- Height-banded bird spawn interval (lines 308-313): sentinel `99999` below
40 m, then five bands with shrinking intervals. -/
def birdInterval (height : ℤ) : ℚ :=
  if 40 ≤ height ∧ height < 80 then 500
  else if 80 ≤ height ∧ height < 130 then 350
  else if 130 ≤ height ∧ height < 200 then 250
  else if 200 ≤ height ∧ height < 300 then 170
  else if 300 ≤ height then 120
  else 99999

/-- Bird spawning (lines 305-324). -/
def birdSpawnPhase (dt : ℚ) (env : Env) (g : Game) : Game :=
  let g : Game := { g with birdTimer := g.birdTimer + dt }
  let height : ℤ := meters g.heightReached
  if g.birdTimer > birdInterval height then
    { g with
      birdTimer := 0
      birds := g.birds ++
        [{ x := W + 30
           y := g.camera + 80 + env.birdY * (H - 200)
           speed := 15/10 + env.birdSpeed * (12/10) + min 2 ((height : ℚ) * (1/100))
           frame := 0 }] }
  else g

/-- One bird-hit particle (6 per collision, lines 343-351). -/
def hitParticle (r : PartRand) (e : Egg) : Particle :=
  { x := e.x, y := e.y
    vx := -(r.a * 3 + 1)
    vy := (r.b - 1/2) * 3
    life := 15
    maxLife := 15
    size := 2 + r.c * 3
    hue := 30 }

/-- Bird motion and climber collision loop (lines 327-353); `i` numbers the
birds for the particle oracle. -/
def birdLoop (dt : ℚ) (env : Env) (i : ℕ) (g : Game) : List Bird → Game × List Bird
  | [] => (g, [])
  | b :: bs =>
      let b : Bird := { b with x := b.x - b.speed * dt, frame := b.frame + dt * (15/100) }
      let dx : ℚ := g.egg.x - b.x
      let dy : ℚ := g.egg.y - b.y
      if |dx| < EGG_R + 14 ∧ |dy| < EGG_R + 8 then
        let g : Game := { g with egg := { g.egg with vx := -4 } }
        let g : Game :=
          if g.state = GState.idle ∨ g.state = GState.charging then
            { g with egg := { g.egg with onPlatform := none, vy := -2 }, state := GState.jumping }
          else g
        let b : Bird := { b with x := -100 }
        let g : Game :=
          { g with particles := g.particles ++ (List.range 6).map fun j => hitParticle (env.hit i j) g.egg }
        let r := birdLoop dt env (i + 1) g bs
        (r.1, b :: r.2)
      else
        let r := birdLoop dt env (i + 1) g bs
        (r.1, b :: r.2)

/-- Bird motion/collision phase followed by the off-screen purge (line 354). -/
def birdMovePhase (dt : ℚ) (env : Env) (g : Game) : Game :=
  let r := birdLoop dt env 0 g g.birds
  { r.1 with birds := r.2.filter fun b => b.x > -50 }

/-- One demotion particle (10 per demotion, lines 363-374). -/
def demoteParticle (r : PartRand) (e : Egg) : Particle :=
  { x := e.x + (r.a - 1/2) * 30
    y := e.y + (r.b - 1/2) * 30
    vx := (r.c - 1/2) * 3
    vy := -(r.d * 2)
    life := 20 + r.e * 15
    maxLife := 35
    size := 2 + r.f * 3
    hue := 0 }

/-- Experience decay while grounded (lines 357-379), with tier recomputation
and a demotion particle burst. -/
def xpDecayPhase (dt : ℚ) (env : Env) (g : Game) : Game :=
  if (g.state = GState.idle ∨ g.state = GState.charging) ∧ g.xp > 0 then
    let g : Game :=
      { g with xpDecayTimer := g.xpDecayTimer + dt, xp := max 0 (g.xp - (8/1000) * dt) }
    let newStage : ℕ := getStage ⌊g.xp⌋
    let g : Game :=
      if newStage < g.stageIdx then
        { g with particles := g.particles ++ (List.range 10).map fun j => demoteParticle (env.demote j) g.egg }
      else g
    { g with stageIdx := newStage }
  else g

/-- Grounded motion (lines 382-394): the climber rides its platform, is pinned
to its surface, and detaches if the platform scrolled below the viewport.
A dangling platform reference (object culled while still referenced) is
treated as an immediate detachment, matching the design's stated runtime
behavior for non-transactional culling. -/
def groundedPhase (dt : ℚ) (g : Game) (plats : List Platform) : Game :=
  if (g.state = GState.idle ∨ g.state = GState.charging) ∧ g.egg.onPlatform ≠ none then
    match g.egg.onPlatform.bind (findPlat plats) with
    | some p =>
        if p.y - g.camera > H then
          { g with egg := { g.egg with onPlatform := none, vy := 0 }, state := GState.jumping }
        else
          { g with egg :=
              { g.egg with
                x := max EGG_R (min (W - EGG_R) (g.egg.x + p.speed * dt))
                y := p.y - EGG_R } }
    | none =>
        { g with egg := { g.egg with onPlatform := none, vy := 0 }, state := GState.jumping }
  else g

/-- One airborne trail particle (lines 406-418). -/
def trailParticle (r : PartRand) (perfectTrail : Bool) (e : Egg) : Particle :=
  { x := e.x + (r.a - 1/2) * 10
    y := e.y + EGG_R + 4
    vx := (r.b - 1/2) * (if perfectTrail then 2 else 1/2)
    vy := r.c * (8/10) + 3/10
    life := if perfectTrail then 25 else 15 + r.d * 10
    maxLife := if perfectTrail then 35 else 25
    size := if perfectTrail then 3 + r.e * 3 else 3/2 + r.e * 2
    hue := if perfectTrail then 45 + r.f * 20 else 200 }

/-- One landing particle (8 per landing, lines 462-473). -/
def landParticle (r : PartRand) (p : Platform) (ex : ℚ) : Particle :=
  { x := ex + (r.a - 1/2) * 20
    y := p.y
    vx := (r.b - 1/2) * 4
    vy := -(r.c * 2 + 1/2)
    life := 20 + r.d * 15
    maxLife := 35
    size := 2 + r.e * 3
    hue := (p.hue : ℚ) }

/-- One evolution-promotion particle (20 per promotion, lines 482-493). -/
def evolveParticle (env : Env) (r : PartRand) (i : ℕ) (e : Egg) : Particle :=
  let angle : ℚ := ((i : ℚ) / 20) * env.piQ * 2
  { x := e.x, y := e.y
    vx := env.qcos angle * (2 + r.a * 3)
    vy := env.qsin angle * (2 + r.b * 3)
    life := 30 + r.c * 20
    maxLife := 50
    size := 3 + r.d * 4
    hue := 50 }

/-- The landing handler (lines 438-496): snap and attach the climber, start a
timed platform's countdown, award the height-gated experience bonus, update
the score, emit particles, and recompute the evolution tier.  The cosmetic
evolve-flash ref and its timeout are rendering-only and not part of the
simulation state. -/
def landBody (env : Env) (g : Game) (p : Platform) : Game × Platform :=
  let e : Egg := { g.egg with y := p.y - EGG_R, vy := 0, vx := 0, onPlatform := some p.pid }
  let p : Platform := if p.ptype = PType.timed then { p with landed := true } else p
  let g : Game := { g with egg := e, state := GState.idle }
  let g : Game :=
    if p.y < g.highestPlatformY then
      { g with
        xp := g.xp + 3
        highestPlatformY := p.y
        landingFx := some { x := e.x, y := p.y, timer := 20, text := "+3 XP" } }
    else
      { g with landingFx := some { x := e.x, y := p.y, timer := 20, text := "SAFE" } }
  let g : Game := { g with score := max g.score ⌊(540 - p.y) / 12⌋, xpDecayTimer := 0 }
  let g : Game :=
    { g with particles := g.particles ++ (List.range 8).map fun j => landParticle (env.land j) p e.x }
  let g : Game := { g with prevStageIdx := g.stageIdx, stageIdx := getStage ⌊g.xp⌋ }
  let g : Game :=
    if g.stageIdx > g.prevStageIdx then
      { g with particles := g.particles ++ (List.range 20).map fun i => evolveParticle env (env.evolve i) i g.egg }
    else g
  (g, p)

/-- The landing scan (lines 425-499): first on-screen, non-removing platform
passing the swept/overlap test wins; the loop breaks after it. -/
def landLoop (dt : ℚ) (env : Env) (g : Game) : List Platform → Game × List Platform
  | [] => (g, [])
  | p :: ps =>
      if p.y - g.camera < -20 ∨ p.y - g.camera > H then
        let r := landLoop dt env g ps
        (r.1, p :: r.2)
      else if p.removing = true then
        let r := landLoop dt env g ps
        (r.1, p :: r.2)
      else
        let prevY : ℚ := g.egg.y - g.egg.vy * dt
        if prevY + EGG_R ≤ p.y + 4 ∧ g.egg.y + EGG_R ≥ p.y - 2 ∧
            g.egg.x + EGG_R * (6/10) > p.x ∧ g.egg.x - EGG_R * (6/10) < p.x + p.w then
          let r := landBody env g p
          (r.1, r.2 :: ps)
        else
          let r := landLoop dt env g ps
          (r.1, p :: r.2)

/-- Airborne integration of the climber (lines 398-403): gravity, velocity
integration, and the damped elastic side walls. -/
def integrateEgg (dt : ℚ) (e0 : Egg) : Egg :=
  let e : Egg := { e0 with vy := e0.vy + GRAVITY * dt }
  let e : Egg := { e with x := e.x + e.vx * dt, y := e.y + e.vy * dt }
  let e : Egg := if e.x < EGG_R then { e with x := EGG_R, vx := |e.vx| * (7/10) } else e
  if e.x > W - EGG_R then { e with x := W - EGG_R, vx := -(|e.vx| * (7/10)) } else e

/-- Probabilistic trail-particle emission while moving upward (lines 406-418). -/
def trailStep (env : Env) (g : Game) : Game :=
  if g.egg.vy < -1 ∧ env.trailGate > 1/2 then
    { g with particles := g.particles ++ [trailParticle env.trail (decide (g.perfectFlash > 0)) g.egg] }
  else g

/-- Landing resolution gate (lines 421-424): only while descending and with
the climber on screen does the landing scan run. -/
def landStep (dt : ℚ) (env : Env) (g : Game) (plats : List Platform) :
    Game × List Platform :=
  if g.egg.vy > 0 then
    if g.egg.y - g.camera < H + 10 then landLoop dt env g plats else (g, plats)
  else (g, plats)

/-- The fall game-over check (lines 504-509). -/
def fallCheck (g : Game) : Game :=
  if g.egg.y > g.camera + H + 20 then
    { g with state := GState.gameover, highScore := max g.highScore g.score }
  else g

/-- The whole `jumping` block (lines 397-510): gravity integration, elastic
walls, trail particles, landing resolution, and the fall game-over check. -/
def jumpBlock (dt : ℚ) (env : Env) (g : Game) (plats : List Platform) :
    Game × List Platform :=
  if g.state = GState.jumping then
    let g : Game := { g with egg := integrateEgg dt g.egg }
    let g : Game := trailStep env g
    let gp : Game × List Platform := landStep dt env g plats
    (fallCheck gp.1, gp.2)
  else (g, plats)

/-- Camera easing (lines 512-516): one-directional scroll toward
`egg.y - H * 0.55`. -/
def cameraPhase (dt : ℚ) (g : Game) : Game :=
  let targetCamY : ℚ := g.egg.y - H * (55/100)
  if targetCamY < g.camera then
    { g with camera := g.camera + (targetCamY - g.camera) * (7/100) * dt }
  else g

/-- The look-ahead generation loop (lines 520-526), fuel-structured so it
computes: the guard is re-checked each step, and the fuel passed by the
caller is an upper bound on the while-loop's iteration count, so the
semantics coincide with the source loop. -/
def genLoop (env : Env) (camY : ℚ) : ℕ → List Platform → ℚ → ℕ → List Platform × ℕ
  | 0, plats, _, pid => (plats, pid)
  | fuel + 1, plats, minY, pid =>
      if minY > camY - 300 then
        let idx : ℕ := plats.length
        let newY : ℚ := minY - PLATFORM_GAP
        genLoop env camY fuel (plats ++ [createPlatform (env.plat idx) newY idx pid]) newY (pid + 1)
      else (plats, pid)

/-- World-column maintenance (lines 519-527): generate ahead of the camera,
then assign the culled live array to the state (the source's `Math.min` of an
empty array cannot occur at runtime; an empty column skips generation). -/
def worldMaint (env : Env) (g : Game) (plats : List Platform) : Game :=
  match plats.map (fun p => p.y) with
  | [] => { g with platforms := plats.filter fun p => p.y < g.camera + H + 50 }
  | y0 :: ys =>
      let minY : ℚ := ys.foldl min y0
      let fuel : ℕ := (⌈(minY - (g.camera - 300)) / PLATFORM_GAP⌉).toNat
      let r := genLoop env g.camera fuel plats minY g.nextPid
      { g with
        nextPid := r.2
        platforms := r.1.filter fun p => p.y < g.camera + H + 50 }

/-- Particle integration and purge (lines 530-536). -/
def particlePhase (dt : ℚ) (g : Game) : Game :=
  { g with
    particles :=
      (g.particles.map fun p =>
        { p with
          x := p.x + p.vx * dt
          y := p.y + p.vy * dt
          vy := p.vy + (5/100) * dt
          life := p.life - dt }).filter fun p => p.life > 0 }

/-- Landing-cue timer (lines 539-542). -/
def landingFxPhase (dt : ℚ) (g : Game) : Game :=
  match g.landingFx with
  | some fx =>
      let fx : Fx := { fx with timer := fx.timer - dt }
      if fx.timer ≤ 0 then { g with landingFx := none } else { g with landingFx := some fx }
  | none => g

/-- Perfect-flash timer (lines 545-547). -/
def flashPhase (dt : ℚ) (g : Game) : Game :=
  if g.perfectFlash > 0 then { g with perfectFlash := g.perfectFlash - dt } else g

/-- The frame stepper `update(dt)` (lines 264-548).  The source destructures
`const platforms = g.platforms` once; the local array is mutated in place and
is the one read by every later phase, so it is threaded separately here.  The
line-302 reassignment of the field from a filtered copy is kept (as in the
source) but is dead: line 527 overwrites the field from the stale local
array, so expired timed platforms are not actually purged from the column. -/
def update (dt : ℚ) (env : Env) (g0 : Game) : Game :=
  if g0.state = GState.gameover then g0
  else
    let g : Game := powerPhase dt g0
    let plats : List Platform := g.platforms.map (movePlat dt)
    let g : Game := { g with platforms := plats }
    let r := timedLoop dt g plats
    let g : Game := r.1
    let plats : List Platform := r.2
    let g : Game :=
      { g with platforms := plats.filter fun p => ¬ (p.ptype = PType.timed ∧ p.removing = true) }
    let g : Game := birdSpawnPhase dt env g
    let g : Game := birdMovePhase dt env g
    let g : Game := xpDecayPhase dt env g
    let g : Game := groundedPhase dt g plats
    let r2 := jumpBlock dt env g plats
    let g : Game := r2.1
    let plats : List Platform := r2.2
    let g : Game := cameraPhase dt g
    let g : Game := { g with heightReached := min g.heightReached g.egg.y }
    let g : Game := worldMaint env g plats
    let g : Game := particlePhase dt g
    let g : Game := landingFxPhase dt g
    flashPhase dt g

/-- One externally observable transition: a frame step or a command. -/
inductive Op where
  | step (dt : ℚ) (env : Env)
  | charge
  | release (env : Env)
  | reset (env : Env)

/-- Apply one transition. -/
def applyOp : Op → Game → Game
  | Op.step dt env, g => update dt env g
  | Op.charge, g => startCharging g
  | Op.release env, g => releaseJump env g
  | Op.reset env, g => initGame env g

/-- Run a sequence of transitions. -/
def run (ops : List Op) (g : Game) : Game :=
  ops.foldl (fun g op => applyOp op g) g

/-- A fixed all-zero particle-draw value for concrete runs. -/
def pr0 : PartRand := ⟨0, 0, 0, 0, 0, 0⟩

/-- A fixed concrete oracle (all draws zero) for concrete runs. -/
def env0 : Env :=
  { plat := fun _ => ⟨0, 0, 0, 0, 0⟩
    birdY := 0
    birdSpeed := 0
    hit := fun _ _ => pr0
    demote := fun _ => pr0
    trailGate := 0
    trail := pr0
    land := fun _ => pr0
    evolve := fun _ => pr0
    perfect := fun _ => pr0
    ring := fun _ => pr0
    normalJump := fun _ => pr0
    qcos := fun _ => 0
    qsin := fun _ => 0
    piQ := 0 }

/-- A gameover state used as a concrete input. -/
def gO : Game := { g0 with state := GState.gameover }

/-- A stationary platform parked just above the generation look-ahead line. -/
def pLow : Platform :=
  { x := 100, y := -301, w := 100, h := 11, speed := 0, hue := 0
    ptype := PType.normal, timer := 0, landed := false, removing := false, pid := 0 }

/-- A ground-level (0 m) idle state whose bird timer is about to pass the
sentinel interval. -/
def sBird : Game :=
  { state := GState.idle
    egg := { x := 150, y := 540, vx := 0, vy := 0, onPlatform := none }
    platforms := [pLow]
    camera := 0
    power := { value := 50, dir := 1, speed := 16/10 }
    score := 0
    highScore := 0
    xp := 0
    xpDecayTimer := 0
    stageIdx := 0
    prevStageIdx := 0
    particles := []
    birds := []
    birdTimer := 99999
    perfectFlash := 0
    landingFx := none
    heightReached := 540
    highestPlatformY := 540
    nextPid := 1 }

/-- The state `sBird` right after the bird-spawn phase of one tick. -/
def sBirdMid : Game :=
  { sBird with birdTimer := 0, birds := [{ x := 430, y := 80, speed := 3/2, frame := 0 }] }

/-- The state `sBird` after one whole tick of length 1. -/
def sBirdEnd : Game :=
  { sBird with birdTimer := 0, birds := [{ x := 857/2, y := 80, speed := 3/2, frame := 3/20 }] }

/-- A landed timed platform whose countdown is about to expire. -/
def pTimed : Platform :=
  { x := 100, y := 400, w := 100, h := 11, speed := 0, hue := 0
    ptype := PType.timed, timer := 1/2, landed := true, removing := false, pid := 1 }

/-- The same platform after its countdown expired. -/
def pTimedGone : Platform :=
  { pTimed with timer := 0, removing := true }

/-- An off-screen parked platform keeping the generator quiet. -/
def pPark : Platform :=
  { x := 100, y := -301, w := 100, h := 11, speed := 0, hue := 0
    ptype := PType.normal, timer := 0, landed := false, removing := false, pid := 0 }

/-- An idle state with the climber standing on the expiring timed platform. -/
def sTimed : Game :=
  { state := GState.idle
    egg := { x := 150, y := 382, vx := 0, vy := 0, onPlatform := some 1 }
    platforms := [pTimed, pPark]
    camera := 0
    power := { value := 50, dir := 1, speed := 16/10 }
    score := 0
    highScore := 0
    xp := 0
    xpDecayTimer := 0
    stageIdx := 0
    prevStageIdx := 0
    particles := []
    birds := []
    birdTimer := 0
    perfectFlash := 0
    landingFx := none
    heightReached := 382
    highestPlatformY := 540
    nextPid := 2 }

/-- `sTimed` right after the timed-countdown loop: detached, falling, and the
field holds the (dead-store) filtered copy. -/
def sTimedDrop : Game :=
  { sTimed with
    egg := { x := 150, y := 382, vx := 0, vy := 0, onPlatform := none }
    state := GState.jumping
    platforms := [pPark] }

/-- `sTimedDrop` after the bird-spawn timer accumulated one frame. -/
def sTimedMid : Game :=
  { sTimedDrop with birdTimer := 1 }

/-- `sTimedMid` after gravity integration of the falling climber. -/
def sTimedFall : Game :=
  { sTimedMid with egg := { x := 150, y := 9557/25, vx := 0, vy := 7/25, onPlatform := none } }

/-- The end state of the tick: the expired platform is back in the column
because line 527 rebuilds `g.platforms` from the stale local array. -/
def sTimedEnd : Game :=
  { sTimedFall with platforms := [pTimedGone, pPark] }

/-- A charging state at full power and tier 0. -/
def gCharge : Game :=
  { state := GState.charging
    egg := { x := 150, y := 540, vx := 0, vy := 0, onPlatform := none }
    platforms := []
    camera := 0
    power := { value := 100, dir := 1, speed := 16/10 }
    score := 0
    highScore := 0
    xp := 0
    xpDecayTimer := 0
    stageIdx := 0
    prevStageIdx := 0
    particles := []
    birds := []
    birdTimer := 0
    perfectFlash := 0
    landingFx := none
    heightReached := 540
    highestPlatformY := 540
    nextPid := 0 }

/-- A platform strictly above the recorded best height. -/
def pLand : Platform :=
  { x := 100, y := 400, w := 100, h := 11, speed := 0, hue := 17
    ptype := PType.normal, timer := 0, landed := false, removing := false, pid := 3 }

/-- A descending state about to land on `pLand`. -/
def gLand : Game :=
  { state := GState.jumping
    egg := { x := 150, y := 381, vx := 0, vy := 2, onPlatform := none }
    platforms := [pLand]
    camera := 0
    power := { value := 50, dir := 1, speed := 16/10 }
    score := 0
    highScore := 0
    xp := 0
    xpDecayTimer := 0
    stageIdx := 0
    prevStageIdx := 0
    particles := []
    birds := []
    birdTimer := 0
    perfectFlash := 0
    landingFx := none
    heightReached := 381
    highestPlatformY := 540
    nextPid := 4 }

/-- The states reachable from the mounted-and-initialized game by any
sequence of frame steps and commands. -/
inductive Reachable : Game → Prop where
  | init (env : Env) : Reachable (initGame env g0)
  | step (dt : ℚ) (env : Env) {g : Game} : Reachable g → Reachable (update dt env g)
  | charge {g : Game} : Reachable g → Reachable (startCharging g)
  | release (env : Env) {g : Game} : Reachable g → Reachable (releaseJump env g)
  | reset (env : Env) {g : Game} : Reachable g → Reachable (initGame env g)

/-- No platform with identity `k` is present in the column. -/
def pidAbsent (k : ℕ) (g : Game) : Prop :=
  ∀ q ∈ g.platforms, q.pid ≠ k

/-- Freshness: identity `k` is absent from the column and below the
allocation counter, so no later allocation can reuse it. -/
def pidFresh (k : ℕ) (g : Game) : Prop :=
  pidAbsent k g ∧ k < g.nextPid

/-- The fragile launch platform of the witness run. -/
def pFrag : Platform :=
  { x := 100, y := 400, w := 100, h := 11, speed := 0, hue := 270
    ptype := PType.fragile, timer := 0, landed := false, removing := false, pid := 1 }

/-- A charging state standing on the fragile platform `pFrag`. -/
def gFrag : Game :=
  { state := GState.charging
    egg := { x := 150, y := 382, vx := 0, vy := 0, onPlatform := some 1 }
    platforms := [pFrag]
    camera := 0
    power := { value := 60, dir := 1, speed := 16/10 }
    score := 0
    highScore := 0
    xp := 0
    xpDecayTimer := 0
    stageIdx := 0
    prevStageIdx := 0
    particles := []
    birds := []
    birdTimer := 0
    perfectFlash := 0
    landingFx := none
    heightReached := 382
    highestPlatformY := 540
    nextPid := 2 }

/-- C1 (counterexample): the derived time-delta is not clamped below; with a
clock that steps backwards (time 0 after lastTime 1) the loop derives a
strictly negative `dt` and passes it on, so the claimed non-negative clamp
does not exist in the code. -/
theorem c1_counterexample : dtOf 0 1 < 0 ∧ dtOf 0 1 = -(100/1667) := by
  constructor
  · norm_num [dtOf]
  · norm_num [dtOf]

/-- C1 (amended): the derived `dt` is clamped above by the fixed multiple 2.5
of the nominal frame interval, and it is non-negative provided the elapsed
clock is monotone (`lastTime ≤ time`); there is no lower clamp in the code. -/
theorem c1_amended (time lastTime : ℚ) (h : lastTime ≤ time) :
    0 ≤ dtOf time lastTime ∧ dtOf time lastTime ≤ 5/2 := by
  constructor
  · exact le_min (div_nonneg (sub_nonneg.mpr h) (by norm_num)) (by norm_num)
  · exact min_le_right _ _

/-- C1 (witness): the amended clamp bounds evaluated at time 1, lastTime 0. -/
theorem c1_witness : 0 ≤ dtOf 1 0 ∧ dtOf 1 0 ≤ 5/2 :=
  c1_amended 1 0 (by norm_num)

/-- C10: once the state is gameover the frame stepper is a complete no-op for
every `dt`, and the two non-reset commands are no-ops as well; only the reset
command can change the state thereafter. -/
theorem c10_gameover_noop (dt : ℚ) (env : Env) (g : Game)
    (h : g.state = GState.gameover) :
    update dt env g = g ∧ startCharging g = g ∧ releaseJump env g = g := by
  refine ⟨?_, ?_, ?_⟩
  · simp only [update, h, if_pos]
  · simp [startCharging, h]
  · simp [releaseJump, h]

/-- C10 (witness): the no-ops evaluated on a concrete gameover state. -/
theorem c10_witness : update 1 env0 gO = gO ∧ startCharging gO = gO ∧ releaseJump env0 gO = gO :=
  c10_gameover_noop 1 env0 gO rfl

/-- Bird-collision handling never touches the power meter. -/
theorem birdLoop_power (dt : ℚ) (env : Env) :
    ∀ (bs : List Bird) (i : ℕ) (g : Game), ((birdLoop dt env i g bs).1).power = g.power := by
  intro bs
  induction bs with
  | nil => intro i g; rfl
  | cons b bs ih =>
      intro i g
      simp only [birdLoop]
      split
      · rw [ih]
        split <;> rfl
      · rw [ih]

/-- C9: an obstacle collision (even one that forces the climber airborne
while charging) leaves the power meter record — value, direction and speed —
untouched, and the meter does not advance outside the charging state. -/
theorem c9_collision_power (dt : ℚ) (env : Env) (g : Game) :
    (birdMovePhase dt env g).power = g.power ∧
      (g.state ≠ GState.charging → (powerPhase dt g).power = g.power) := by
  constructor
  · simp only [birdMovePhase]
    exact birdLoop_power dt env g.birds 0 g
  · intro h
    simp [powerPhase, h]

/-- C9 (witness): evaluated on a concrete non-charging state. -/
theorem c9_witness :
    (birdMovePhase 1 env0 gO).power = gO.power ∧ (powerPhase 1 gO).power = gO.power :=
  ⟨(c9_collision_power 1 env0 gO).1,
   (c9_collision_power 1 env0 gO).2 (by simp [gO, g0])⟩

/-- One tick on `sBird` evaluated phase by phase. -/
theorem update_sBird : update 1 env0 sBird = sBirdEnd := by
  have eIf : (sBird.state = GState.gameover) = False := by simp [sBird]
  have e1 : powerPhase 1 sBird = sBird := rfl
  have e2 : sBird.platforms.map (movePlat 1) = [pLow] := rfl
  have e3 : ({ sBird with platforms := [pLow] } : Game) = sBird := rfl
  have e4 : timedLoop 1 sBird [pLow] = (sBird, [pLow]) := rfl
  have e5 : ([pLow].filter fun p => ¬ (p.ptype = PType.timed ∧ p.removing = true)) = [pLow] := rfl
  have e6 : birdSpawnPhase 1 env0 sBird = sBirdMid := by
    norm_num [birdSpawnPhase, meters, birdInterval, sBird, sBirdMid, env0, W, H]
  have e7 : birdMovePhase 1 env0 sBirdMid = sBirdEnd := by
    norm_num [birdMovePhase, birdLoop, sBirdMid, sBirdEnd, sBird, env0, EGG_R]
  have e8 : xpDecayPhase 1 env0 sBirdEnd = sBirdEnd := by
    norm_num [xpDecayPhase, sBirdEnd, sBird]
  have e9 : groundedPhase 1 sBirdEnd [pLow] = sBirdEnd := rfl
  have e10 : jumpBlock 1 env0 sBirdEnd [pLow] = (sBirdEnd, [pLow]) := rfl
  have e11 : cameraPhase 1 sBirdEnd = sBirdEnd := by
    norm_num [cameraPhase, sBirdEnd, sBird, H]
  have e12 : ({ sBirdEnd with heightReached := min sBirdEnd.heightReached sBirdEnd.egg.y } : Game) =
      sBirdEnd := by
    norm_num [sBirdEnd, sBird]
  have hc : (⌈-((1:ℚ)/80)⌉ : ℤ) = 0 := Int.ceil_eq_iff.mpr (by norm_num)
  have e13 : worldMaint env0 sBirdEnd [pLow] = sBirdEnd := by
    norm_num [worldMaint, genLoop, sBirdEnd, sBird, pLow, H, PLATFORM_GAP, hc]
  have e14 : particlePhase 1 sBirdEnd = sBirdEnd := rfl
  have e15 : landingFxPhase 1 sBirdEnd = sBirdEnd := rfl
  have e16 : flashPhase 1 sBirdEnd = sBirdEnd := by
    norm_num [flashPhase, sBirdEnd, sBird]
  simp only [update, eIf, if_false, e1, e2, e3, e4, e5, e6, e7, e8, e9, e10, e11, e12, e13,
    e14, e15, e16]

/-- C7 (counterexample): below the lowest band (0 m climbed) the frame
stepper does create a bird once enough frames have accumulated on the spawn
timer — the sentinel interval is the finite 99999, not infinity. -/
theorem c7_counterexample :
    meters sBird.heightReached < 40 ∧ sBird.birds = [] ∧ (update 1 env0 sBird).birds ≠ [] := by
  refine ⟨by norm_num [meters, sBird], rfl, ?_⟩
  rw [update_sBird]
  simp [sBirdEnd, sBird]

/-- C7 (amended): below the lowest band the spawn interval is the finite
sentinel 99999 (a spawn is delayed past any practical session length, not
impossible); the interval is non-increasing in the height band, and one tick
appends exactly one bird when and only when the accumulated timer passes the
interval of the current band. -/
theorem c7_amended :
    (∀ h : ℤ, h < 40 → birdInterval h = 99999) ∧
    (∀ h1 h2 : ℤ, h1 ≤ h2 → birdInterval h2 ≤ birdInterval h1) ∧
    (∀ (dt : ℚ) (env : Env) (g : Game),
      ((birdSpawnPhase dt env g).birds).length =
        if birdInterval (meters g.heightReached) < g.birdTimer + dt then g.birds.length + 1
        else g.birds.length) := by
  refine ⟨?_, ?_, ?_⟩
  · intro h hh
    simp only [birdInterval]
    split_ifs <;> first | rfl | omega
  · intro h1 h2 hle
    simp only [birdInterval]
    split_ifs <;> first | omega | norm_num
  · intro dt env g
    simp only [birdSpawnPhase, gt_iff_lt]
    split
    · simp
    · rfl

/-- C7 (witness): the amended statements evaluated at height 0, at the pair
of heights 100 and 200, and on the concrete state `sBird` with `dt = 1`. -/
theorem c7_witness :
    birdInterval 0 = 99999 ∧ birdInterval 200 ≤ birdInterval 100 ∧
      (birdSpawnPhase 1 env0 sBird).birds.length = 1 := by
  refine ⟨c7_amended.1 0 (by norm_num), c7_amended.2.1 100 200 (by norm_num), ?_⟩
  rw [c7_amended.2.2 1 env0 sBird]
  norm_num [meters, birdInterval, sBird]

/-- One tick on `sTimed` evaluated phase by phase. -/
theorem update_sTimed : update 1 env0 sTimed = sTimedEnd := by
  have eIf : (sTimed.state = GState.gameover) = False := by simp [sTimed]
  have e1 : powerPhase 1 sTimed = sTimed := rfl
  have e2 : sTimed.platforms.map (movePlat 1) = [pTimed, pPark] := rfl
  have e3 : ({ sTimed with platforms := [pTimed, pPark] } : Game) = sTimed := rfl
  have e4 : timedLoop 1 sTimed [pTimed, pPark] =
      ({ sTimed with
          egg := { x := 150, y := 382, vx := 0, vy := 0, onPlatform := none }
          state := GState.jumping }, [pTimedGone, pPark]) := by
    norm_num [timedLoop, sTimed, pTimed, pTimedGone, pPark]
  have e5 : ([pTimedGone, pPark].filter fun p => ¬ (p.ptype = PType.timed ∧ p.removing = true)) =
      [pPark] := rfl
  have e6 : ({ { sTimed with
      egg := { x := 150, y := 382, vx := 0, vy := 0, onPlatform := none }
      state := GState.jumping } with platforms := [pPark] } : Game) = sTimedDrop := rfl
  have e7 : birdSpawnPhase 1 env0 sTimedDrop = sTimedMid := by
    norm_num [birdSpawnPhase, meters, birdInterval, sTimedDrop, sTimedMid, sTimed, env0, W, H]
  have e8 : birdMovePhase 1 env0 sTimedMid = sTimedMid := rfl
  have e9 : xpDecayPhase 1 env0 sTimedMid = sTimedMid := rfl
  have e10 : groundedPhase 1 sTimedMid [pTimedGone, pPark] = sTimedMid := rfl
  have e11 : jumpBlock 1 env0 sTimedMid [pTimedGone, pPark] = (sTimedFall, [pTimedGone, pPark]) := by
    norm_num [jumpBlock, integrateEgg, trailStep, landStep, fallCheck, landLoop, sTimedMid,
      sTimedDrop, sTimedFall, sTimed, pTimedGone, pTimed, pPark, env0, GRAVITY, EGG_R, W, H]
  have e12 : cameraPhase 1 sTimedFall = sTimedFall := by
    norm_num [cameraPhase, sTimedFall, sTimedMid, sTimedDrop, sTimed, H]
  have e13 : ({ sTimedFall with
      heightReached := min sTimedFall.heightReached sTimedFall.egg.y } : Game) = sTimedFall := by
    norm_num [sTimedFall, sTimedMid, sTimedDrop, sTimed]
  have hc : (⌈-((1:ℚ)/80)⌉ : ℤ) = 0 := Int.ceil_eq_iff.mpr (by norm_num)
  have e14 : worldMaint env0 sTimedFall [pTimedGone, pPark] = sTimedEnd := by
    norm_num [worldMaint, genLoop, sTimedEnd, sTimedFall, sTimedMid, sTimedDrop, sTimed,
      pTimedGone, pTimed, pPark, H, PLATFORM_GAP, hc]
  have e15 : particlePhase 1 sTimedEnd = sTimedEnd := rfl
  have e16 : landingFxPhase 1 sTimedEnd = sTimedEnd := rfl
  have e17 : flashPhase 1 sTimedEnd = sTimedEnd := by
    norm_num [flashPhase, sTimedEnd, sTimedFall, sTimedMid, sTimedDrop, sTimed]
  simp only [update, eIf, if_false, e1, e2, e3, e4, e5, e6, e7, e8, e9, e10, e11, e12, e13,
    e14, e15, e16, e17]

/-- C2: on the tick in which a landed, occupied timed platform's countdown
reaches zero, the climber is detached (reference cleared, vertical velocity
zeroed before gravity) and the state becomes jumping — but the expired
platform is NOT purged from the column that frame: the line-302 filter is a
dead store, overwritten at line 527 from the stale local array, so the
platform survives the tick marked `removing` with timer 0. -/
theorem c2_timed_zombie :
    (update 1 env0 sTimed).state = GState.jumping ∧
    (update 1 env0 sTimed).egg.onPlatform = none ∧
    (∃ p ∈ (update 1 env0 sTimed).platforms,
      p.pid = 1 ∧ p.ptype = PType.timed ∧ p.removing = true ∧ p.timer = 0) := by
  rw [update_sTimed]
  refine ⟨rfl, rfl, pTimedGone, ?_, rfl, rfl, rfl, rfl⟩
  simp [sTimedEnd, sTimedFall, sTimedMid, sTimedDrop, sTimed]

/-- C3: releaseJump is a no-op unless charging; otherwise it transitions to
jumping, sets the upward launch speed to
`maxJumpVelocity * max(minPowerFloor, power/100) * (1 + stageIndex * perStageBonus)`
(as the downward velocity's negation), and imparts 35% of the launch
platform's lateral speed as the climber's horizontal velocity. -/
theorem c3_releaseJump (env : Env) (g : Game) :
    (g.state ≠ GState.charging → releaseJump env g = g) ∧
    (g.state = GState.charging →
      (releaseJump env g).state = GState.jumping ∧
      (releaseJump env g).egg.vy =
        -(MAX_JUMP_VEL * max (15/100) (g.power.value / 100) * (1 + (g.stageIdx : ℚ) * (12/100))) ∧
      (releaseJump env g).egg.vx =
        (match g.egg.onPlatform.bind (findPlat g.platforms) with
         | some p => p.speed * (35/100)
         | none => 0)) := by
  constructor
  · intro h
    simp only [releaseJump, if_pos h]
  · intro h
    have hn : ¬ g.state ≠ GState.charging := fun hc => hc h
    simp only [releaseJump, if_neg hn]
    refine ⟨?_, ?_, ?_⟩ <;> split <;> rfl

/-- C3 (witness): releasing at power 100 and tier 0 launches with velocity
`maxJumpVelocity * 1 * 1` and the state becomes jumping. -/
theorem c3_witness :
    (releaseJump env0 gCharge).state = GState.jumping ∧
    (releaseJump env0 gCharge).egg.vy = -(MAX_JUMP_VEL * 1 * 1) := by
  obtain ⟨h1, h2, h3⟩ := (c3_releaseJump env0 gCharge).2 rfl
  refine ⟨h1, ?_⟩
  rw [h2]
  norm_num [gCharge]

/-- C4: on landing, the experience bonus is gated by strict improvement of
the best platform height: if the platform's y is strictly below the recorded
`highestPlatformY`, experience rises by the fixed bonus 3, the record is
updated to the platform's y and the cue is the experience-gained variant;
otherwise experience and the record are unchanged and the cue is the safe
variant. -/
theorem c4_landing_xp (env : Env) (g : Game) (p : Platform) :
    (p.y < g.highestPlatformY →
      (landBody env g p).1.xp = g.xp + 3 ∧
      (landBody env g p).1.highestPlatformY = p.y ∧
      ((landBody env g p).1.landingFx).map Fx.text = some "+3 XP") ∧
    (¬ p.y < g.highestPlatformY →
      (landBody env g p).1.xp = g.xp ∧
      (landBody env g p).1.highestPlatformY = g.highestPlatformY ∧
      ((landBody env g p).1.landingFx).map Fx.text = some "SAFE") := by
  constructor
  · intro h
    by_cases ht : p.ptype = PType.timed <;>
      simp [landBody, ht, h, apply_ite Game.xp, apply_ite Game.highestPlatformY,
        apply_ite Game.landingFx]
  · intro h
    by_cases ht : p.ptype = PType.timed <;>
      simp [landBody, ht, h, apply_ite Game.xp, apply_ite Game.highestPlatformY,
        apply_ite Game.landingFx]

/-- C4 (witness): landing on a platform above the previous best awards the
bonus, updates the record and shows the experience-gained cue. -/
theorem c4_witness :
    (landBody env0 gLand pLand).1.xp = gLand.xp + 3 ∧
    (landBody env0 gLand pLand).1.highestPlatformY = pLand.y ∧
    ((landBody env0 gLand pLand).1.landingFx).map Fx.text = some "+3 XP" :=
  (c4_landing_xp env0 gLand pLand).1 (by norm_num [gLand, pLand])

/-- The power phase never moves the camera. -/
lemma powerPhase_camera (dt : ℚ) (g : Game) : (powerPhase dt g).camera = g.camera := by
  simp only [powerPhase]
  split <;> rfl

/-- The timed-countdown loop never moves the camera. -/
lemma timedLoop_camera (dt : ℚ) :
    ∀ (ps : List Platform) (g : Game), ((timedLoop dt g ps).1).camera = g.camera := by
  intro ps
  induction ps with
  | nil => intro g; rfl
  | cons p ps ih =>
      intro g
      simp only [timedLoop]
      split
      · split
        · rw [ih]
          split <;> rfl
        · rw [ih]
      · rw [ih]

/-- The bird-spawn phase never moves the camera. -/
lemma birdSpawnPhase_camera (dt : ℚ) (env : Env) (g : Game) :
    (birdSpawnPhase dt env g).camera = g.camera := by
  simp only [birdSpawnPhase]
  split <;> rfl

/-- The bird-collision loop never moves the camera. -/
lemma birdLoop_camera (dt : ℚ) (env : Env) :
    ∀ (bs : List Bird) (i : ℕ) (g : Game), ((birdLoop dt env i g bs).1).camera = g.camera := by
  intro bs
  induction bs with
  | nil => intro i g; rfl
  | cons b bs ih =>
      intro i g
      simp only [birdLoop]
      split
      · rw [ih]
        split <;> rfl
      · rw [ih]

/-- The bird phase never moves the camera. -/
lemma birdMovePhase_camera (dt : ℚ) (env : Env) (g : Game) :
    (birdMovePhase dt env g).camera = g.camera := by
  simp only [birdMovePhase]
  exact birdLoop_camera dt env g.birds 0 g

/-- The experience-decay phase never moves the camera. -/
lemma xpDecayPhase_camera (dt : ℚ) (env : Env) (g : Game) :
    (xpDecayPhase dt env g).camera = g.camera := by
  simp only [xpDecayPhase]
  split
  · split <;> rfl
  · rfl

/-- The grounded-motion phase never moves the camera. -/
lemma groundedPhase_camera (dt : ℚ) (g : Game) (plats : List Platform) :
    (groundedPhase dt g plats).camera = g.camera := by
  simp only [groundedPhase]
  split
  · split
    · split <;> rfl
    · rfl
  · rfl

/-- The landing handler never moves the camera. -/
lemma landBody_camera (env : Env) (g : Game) (p : Platform) :
    ((landBody env g p).1).camera = g.camera := by
  simp [landBody, apply_ite Game.camera]

/-- The landing scan never moves the camera. -/
lemma landLoop_camera (dt : ℚ) (env : Env) :
    ∀ (ps : List Platform) (g : Game), ((landLoop dt env g ps).1).camera = g.camera := by
  intro ps
  induction ps with
  | nil => intro g; rfl
  | cons p ps ih =>
      intro g
      simp only [landLoop]
      split
      · rw [ih]
      · split
        · rw [ih]
        · split
          · rw [landBody_camera]
          · rw [ih]

/-- The trail step never moves the camera. -/
lemma trailStep_camera (env : Env) (g : Game) : (trailStep env g).camera = g.camera := by
  simp only [trailStep]
  split <;> rfl

/-- The landing step never moves the camera. -/
lemma landStep_camera (dt : ℚ) (env : Env) (g : Game) (plats : List Platform) :
    ((landStep dt env g plats).1).camera = g.camera := by
  simp only [landStep]
  split
  · split
    · rw [landLoop_camera]
    · rfl
  · rfl

/-- The fall check never moves the camera. -/
lemma fallCheck_camera (g : Game) : (fallCheck g).camera = g.camera := by
  simp only [fallCheck]
  split <;> rfl

/-- The jumping block never moves the camera. -/
lemma jumpBlock_camera (dt : ℚ) (env : Env) (g : Game) (plats : List Platform) :
    ((jumpBlock dt env g plats).1).camera = g.camera := by
  simp only [jumpBlock]
  split
  · rw [fallCheck_camera, landStep_camera, trailStep_camera]
  · rfl

/-- World maintenance never moves the camera. -/
lemma worldMaint_camera (env : Env) (g : Game) (plats : List Platform) :
    (worldMaint env g plats).camera = g.camera := by
  simp only [worldMaint]
  split <;> rfl

/-- The particle phase never moves the camera. -/
lemma particlePhase_camera (dt : ℚ) (g : Game) : (particlePhase dt g).camera = g.camera := rfl

/-- The landing-cue phase never moves the camera. -/
lemma landingFxPhase_camera (dt : ℚ) (g : Game) : (landingFxPhase dt g).camera = g.camera := by
  simp only [landingFxPhase]
  split
  · split <;> rfl
  · rfl

/-- The flash phase never moves the camera. -/
lemma flashPhase_camera (dt : ℚ) (g : Game) : (flashPhase dt g).camera = g.camera := by
  simp only [flashPhase]
  split <;> rfl

/-- The camera phase is non-increasing for non-negative time deltas. -/
lemma cameraPhase_le (dt : ℚ) (g : Game) (hdt : 0 ≤ dt) :
    (cameraPhase dt g).camera ≤ g.camera := by
  simp only [cameraPhase]
  split
  · rename_i h
    have hneg : g.egg.y - H * (55/100) - g.camera < 0 := sub_neg.mpr h
    show g.camera + (g.egg.y - H * (55/100) - g.camera) * (7/100) * dt ≤ g.camera
    nlinarith
  · exact le_refl _

/-- C6: across every frame step with a non-negative time delta the camera's
vertical offset is monotonically non-increasing — it eases toward the target
`egg.y - H * 0.55` only when that target is above it and otherwise stays
put, so it never moves downward. -/
theorem c6_camera_monotone (dt : ℚ) (env : Env) (g : Game) (hdt : 0 ≤ dt) :
    (update dt env g).camera ≤ g.camera := by
  by_cases hg : g.state = GState.gameover
  · simp [update, hg]
  · simp only [update, if_neg hg, flashPhase_camera, landingFxPhase_camera,
      particlePhase_camera, worldMaint_camera]
    refine (cameraPhase_le dt _ hdt).trans (le_of_eq ?_)
    simp only [jumpBlock_camera, groundedPhase_camera, xpDecayPhase_camera,
      birdMovePhase_camera, birdSpawnPhase_camera, timedLoop_camera, powerPhase_camera]

/-- C6 (witness): one unit step on the initial ref state does not move the
camera downward. -/
theorem c6_witness : (update 1 env0 g0).camera ≤ g0.camera :=
  c6_camera_monotone 1 env0 g0 (by norm_num)

/-- The power phase never touches experience. -/
lemma powerPhase_xp (dt : ℚ) (g : Game) : (powerPhase dt g).xp = g.xp := by
  simp only [powerPhase]
  split <;> rfl

/-- The timed-countdown loop never touches experience. -/
lemma timedLoop_xp (dt : ℚ) :
    ∀ (ps : List Platform) (g : Game), ((timedLoop dt g ps).1).xp = g.xp := by
  intro ps
  induction ps with
  | nil => intro g; rfl
  | cons p ps ih =>
      intro g
      simp only [timedLoop]
      split
      · split
        · rw [ih]
          split <;> rfl
        · rw [ih]
      · rw [ih]

/-- The bird-spawn phase never touches experience. -/
lemma birdSpawnPhase_xp (dt : ℚ) (env : Env) (g : Game) :
    (birdSpawnPhase dt env g).xp = g.xp := by
  simp only [birdSpawnPhase]
  split <;> rfl

/-- The bird-collision loop never touches experience. -/
lemma birdLoop_xp (dt : ℚ) (env : Env) :
    ∀ (bs : List Bird) (i : ℕ) (g : Game), ((birdLoop dt env i g bs).1).xp = g.xp := by
  intro bs
  induction bs with
  | nil => intro i g; rfl
  | cons b bs ih =>
      intro i g
      simp only [birdLoop]
      split
      · rw [ih]
        split <;> rfl
      · rw [ih]

/-- The bird phase never touches experience. -/
lemma birdMovePhase_xp (dt : ℚ) (env : Env) (g : Game) :
    (birdMovePhase dt env g).xp = g.xp := by
  simp only [birdMovePhase]
  exact birdLoop_xp dt env g.birds 0 g

/-- Experience decay keeps experience non-negative (the decay is floored at
zero by `Math.max(0, …)`). -/
lemma xpDecayPhase_xp_nonneg (dt : ℚ) (env : Env) (g : Game) (h : 0 ≤ g.xp) :
    0 ≤ (xpDecayPhase dt env g).xp := by
  simp only [xpDecayPhase]
  split
  · simp only [apply_ite Game.xp]
    split <;> exact le_max_left _ _
  · exact h

/-- The grounded-motion phase never touches experience. -/
lemma groundedPhase_xp (dt : ℚ) (g : Game) (plats : List Platform) :
    (groundedPhase dt g plats).xp = g.xp := by
  simp only [groundedPhase]
  split
  · split
    · split <;> rfl
    · rfl
  · rfl

/-- The landing handler either adds the fixed bonus 3 or leaves experience
unchanged. -/
lemma landBody_xp (env : Env) (g : Game) (p : Platform) :
    ((landBody env g p).1).xp = if p.y < g.highestPlatformY then g.xp + 3 else g.xp := by
  by_cases hb : p.y < g.highestPlatformY <;> by_cases ht : p.ptype = PType.timed <;>
    simp [landBody, hb, ht, apply_ite Game.xp]

/-- The landing scan keeps experience non-negative. -/
lemma landLoop_xp_nonneg (dt : ℚ) (env : Env) :
    ∀ (ps : List Platform) (g : Game), 0 ≤ g.xp → 0 ≤ ((landLoop dt env g ps).1).xp := by
  intro ps
  induction ps with
  | nil => intro g h; exact h
  | cons p ps ih =>
      intro g h
      simp only [landLoop]
      split
      · exact ih g h
      · split
        · exact ih g h
        · split
          · rw [landBody_xp]
            split
            · positivity
            · exact h
          · exact ih g h

/-- The trail step never touches experience. -/
lemma trailStep_xp (env : Env) (g : Game) : (trailStep env g).xp = g.xp := by
  simp only [trailStep]
  split <;> rfl

/-- The landing step keeps experience non-negative. -/
lemma landStep_xp_nonneg (dt : ℚ) (env : Env) (g : Game) (plats : List Platform)
    (h : 0 ≤ g.xp) : 0 ≤ ((landStep dt env g plats).1).xp := by
  simp only [landStep]
  split
  · split
    · exact landLoop_xp_nonneg dt env plats g h
    · exact h
  · exact h

/-- The fall check never touches experience. -/
lemma fallCheck_xp (g : Game) : (fallCheck g).xp = g.xp := by
  simp only [fallCheck]
  split <;> rfl

/-- The jumping block keeps experience non-negative. -/
lemma jumpBlock_xp_nonneg (dt : ℚ) (env : Env) (g : Game) (plats : List Platform)
    (h : 0 ≤ g.xp) : 0 ≤ ((jumpBlock dt env g plats).1).xp := by
  simp only [jumpBlock]
  split
  · rw [fallCheck_xp]
    refine landStep_xp_nonneg dt env _ _ ?_
    rw [trailStep_xp]
    exact h
  · exact h

/-- The camera phase never touches experience. -/
lemma cameraPhase_xp (dt : ℚ) (g : Game) : (cameraPhase dt g).xp = g.xp := by
  simp only [cameraPhase]
  split <;> rfl

/-- World maintenance never touches experience. -/
lemma worldMaint_xp (env : Env) (g : Game) (plats : List Platform) :
    (worldMaint env g plats).xp = g.xp := by
  simp only [worldMaint]
  split <;> rfl

/-- The particle phase never touches experience. -/
lemma particlePhase_xp (dt : ℚ) (g : Game) : (particlePhase dt g).xp = g.xp := rfl

/-- The landing-cue phase never touches experience. -/
lemma landingFxPhase_xp (dt : ℚ) (g : Game) : (landingFxPhase dt g).xp = g.xp := by
  simp only [landingFxPhase]
  split
  · split <;> rfl
  · rfl

/-- The flash phase never touches experience. -/
lemma flashPhase_xp (dt : ℚ) (g : Game) : (flashPhase dt g).xp = g.xp := by
  simp only [flashPhase]
  split <;> rfl

/-- One frame step keeps experience non-negative. -/
lemma update_xp_nonneg (dt : ℚ) (env : Env) (g : Game) (h : 0 ≤ g.xp) :
    0 ≤ (update dt env g).xp := by
  by_cases hg : g.state = GState.gameover
  · simp only [update, if_pos hg]
    exact h
  · simp only [update, if_neg hg, flashPhase_xp, landingFxPhase_xp, particlePhase_xp,
      worldMaint_xp]
    rw [cameraPhase_xp]
    refine jumpBlock_xp_nonneg dt env _ _ ?_
    rw [groundedPhase_xp]
    refine xpDecayPhase_xp_nonneg dt env _ ?_
    simp only [birdMovePhase_xp, birdSpawnPhase_xp, timedLoop_xp, powerPhase_xp]
    exact h

/-- The begin-charge command never touches experience. -/
lemma startCharging_xp (g : Game) : (startCharging g).xp = g.xp := by
  simp only [startCharging]
  split <;> rfl

/-- The release-jump command keeps experience non-negative (a perfect release
adds the fixed bonus 5). -/
lemma releaseJump_xp_nonneg (env : Env) (g : Game) (h : 0 ≤ g.xp) :
    0 ≤ (releaseJump env g).xp := by
  simp only [releaseJump]
  split
  · exact h
  · split
    · positivity
    · exact h

/-- C8: experience is always non-negative — in every state reachable by any
sequence of frame steps (decay is floored at zero) and commands (landing and
perfect-release bonuses only add), the experience value is at least 0. -/
theorem c8_xp_nonneg (g : Game) (h : Reachable g) : 0 ≤ g.xp := by
  induction h with
  | init env => norm_num [initGame]
  | step dt env _ ih => exact update_xp_nonneg dt env _ ih
  | charge _ ih => rw [startCharging_xp]; exact ih
  | release env _ ih => exact releaseJump_xp_nonneg env _ ih
  | reset env _ ih => norm_num [initGame]

/-- C8 (witness): the freshly initialized state is reachable and its
experience is non-negative. -/
theorem c8_witness : 0 ≤ (initGame env0 g0).xp :=
  c8_xp_nonneg _ (Reachable.init env0)

/-- Platform motion keeps the platform's identity. -/
lemma movePlat_pid (dt : ℚ) (p : Platform) : (movePlat dt p).pid = p.pid := by
  simp only [movePlat]
  split <;> rfl

/-- A freshly generated platform carries the identity it was given. -/
lemma createPlatform_pid (r : PlatRand) (y : ℚ) (i : ℕ) (k : ℕ) :
    (createPlatform r y i k).pid = k := rfl

/-- The timed loop only rewrites platforms in place: every identity in its
output list comes from the input list. -/
lemma timedLoop_pids (dt : ℚ) :
    ∀ (ps : List Platform) (g : Game) (q : Platform),
      q ∈ (timedLoop dt g ps).2 → ∃ p ∈ ps, q.pid = p.pid := by
  intro ps
  induction ps with
  | nil => intro g q hq; cases hq
  | cons p ps ih =>
      intro g q hq
      simp only [timedLoop] at hq
      split at hq
      · split at hq
        · rcases List.mem_cons.mp hq with h | h
          · exact ⟨p, List.mem_cons_self p ps, by rw [h]⟩
          · rcases ih _ q h with ⟨p0, hp0, hpid⟩
            exact ⟨p0, List.mem_cons_of_mem p hp0, hpid⟩
        · rcases List.mem_cons.mp hq with h | h
          · exact ⟨p, List.mem_cons_self p ps, by rw [h]⟩
          · rcases ih _ q h with ⟨p0, hp0, hpid⟩
            exact ⟨p0, List.mem_cons_of_mem p hp0, hpid⟩
      · rcases List.mem_cons.mp hq with h | h
        · exact ⟨p, List.mem_cons_self p ps, by rw [h]⟩
        · rcases ih _ q h with ⟨p0, hp0, hpid⟩
          exact ⟨p0, List.mem_cons_of_mem p hp0, hpid⟩

/-- The landing handler keeps the landed platform's identity. -/
lemma landBody_pid (env : Env) (g : Game) (p : Platform) :
    ((landBody env g p).2).pid = p.pid := by
  simp only [landBody]
  split <;> rfl

/-- The landing scan only rewrites platforms in place. -/
lemma landLoop_pids (dt : ℚ) (env : Env) :
    ∀ (ps : List Platform) (g : Game) (q : Platform),
      q ∈ (landLoop dt env g ps).2 → ∃ p ∈ ps, q.pid = p.pid := by
  intro ps
  induction ps with
  | nil => intro g q hq; cases hq
  | cons p ps ih =>
      intro g q hq
      simp only [landLoop] at hq
      split at hq
      · rcases List.mem_cons.mp hq with h | h
        · exact ⟨p, List.mem_cons_self p ps, by rw [h]⟩
        · rcases ih _ q h with ⟨p0, hp0, hpid⟩
          exact ⟨p0, List.mem_cons_of_mem p hp0, hpid⟩
      · split at hq
        · rcases List.mem_cons.mp hq with h | h
          · exact ⟨p, List.mem_cons_self p ps, by rw [h]⟩
          · rcases ih _ q h with ⟨p0, hp0, hpid⟩
            exact ⟨p0, List.mem_cons_of_mem p hp0, hpid⟩
        · split at hq
          · rcases List.mem_cons.mp hq with h | h
            · refine ⟨p, List.mem_cons_self p ps, ?_⟩
              rw [h, landBody_pid]
            · exact ⟨q, List.mem_cons_of_mem p h, rfl⟩
          · rcases List.mem_cons.mp hq with h | h
            · exact ⟨p, List.mem_cons_self p ps, by rw [h]⟩
            · rcases ih _ q h with ⟨p0, hp0, hpid⟩
              exact ⟨p0, List.mem_cons_of_mem p hp0, hpid⟩

/-- The landing step only rewrites platforms in place. -/
lemma landStep_pids (dt : ℚ) (env : Env) (g : Game) (plats : List Platform)
    (q : Platform) (hq : q ∈ (landStep dt env g plats).2) : ∃ p ∈ plats, q.pid = p.pid := by
  simp only [landStep] at hq
  split at hq
  · split at hq
    · exact landLoop_pids dt env plats g q hq
    · exact ⟨q, hq, rfl⟩
  · exact ⟨q, hq, rfl⟩

/-- The jumping block only rewrites platforms in place. -/
lemma jumpBlock_pids (dt : ℚ) (env : Env) (g : Game) (plats : List Platform)
    (q : Platform) (hq : q ∈ (jumpBlock dt env g plats).2) : ∃ p ∈ plats, q.pid = p.pid := by
  simp only [jumpBlock] at hq
  split at hq
  · exact landStep_pids dt env _ plats q hq
  · exact ⟨q, hq, rfl⟩

/-- The generation loop appends only platforms with identities at or above
the running counter, and never lowers the counter. -/
lemma genLoop_pids (env : Env) (camY : ℚ) :
    ∀ (fuel : ℕ) (plats : List Platform) (minY : ℚ) (pid : ℕ),
      (∀ q ∈ (genLoop env camY fuel plats minY pid).1, q ∈ plats ∨ pid ≤ q.pid) ∧
        pid ≤ (genLoop env camY fuel plats minY pid).2 := by
  intro fuel
  induction fuel with
  | zero => intro plats minY pid; exact ⟨fun q hq => Or.inl hq, le_refl _⟩
  | succ fuel ih =>
      intro plats minY pid
      simp only [genLoop]
      split
      · constructor
        · intro q hq
          rcases (ih _ _ _).1 q hq with hq' | hge
          · rcases List.mem_append.mp hq' with h1 | h2
            · exact Or.inl h1
            · right
              rcases List.mem_singleton.mp h2 with rfl
              rw [createPlatform_pid]
          · exact Or.inr (le_trans (Nat.le_succ pid) hge)
        · exact le_trans (Nat.le_succ pid) (ih _ _ _).2
      · exact ⟨fun q hq => Or.inl hq, le_refl _⟩

/-- Every platform in the maintained column either comes from the live
array or was freshly allocated at or above the counter. -/
lemma worldMaint_pids (env : Env) (g : Game) (plats : List Platform) (q : Platform)
    (hq : q ∈ (worldMaint env g plats).platforms) :
    (∃ p ∈ plats, q.pid = p.pid) ∨ g.nextPid ≤ q.pid := by
  simp only [worldMaint] at hq
  split at hq
  · exact Or.inl ⟨q, List.mem_of_mem_filter hq, rfl⟩
  · rcases (genLoop_pids env _ _ _ _ _).1 q (List.mem_of_mem_filter hq) with h1 | h2
    · exact Or.inl ⟨q, h1, rfl⟩
    · exact Or.inr h2

/-- World maintenance never lowers the allocation counter. -/
lemma worldMaint_nextPid_ge (env : Env) (g : Game) (plats : List Platform) :
    g.nextPid ≤ (worldMaint env g plats).nextPid := by
  simp only [worldMaint]
  split
  · exact le_refl _
  · exact (genLoop_pids env _ _ _ _ _).2

/-- The power phase keeps the allocation counter. -/
lemma powerPhase_nextPid (dt : ℚ) (g : Game) : (powerPhase dt g).nextPid = g.nextPid := by
  simp only [powerPhase]
  split <;> rfl

/-- The timed loop keeps the allocation counter. -/
lemma timedLoop_nextPid (dt : ℚ) :
    ∀ (ps : List Platform) (g : Game), ((timedLoop dt g ps).1).nextPid = g.nextPid := by
  intro ps
  induction ps with
  | nil => intro g; rfl
  | cons p ps ih =>
      intro g
      simp only [timedLoop]
      split
      · split
        · rw [ih]
          split <;> rfl
        · rw [ih]
      · rw [ih]

/-- The bird-spawn phase keeps the allocation counter. -/
lemma birdSpawnPhase_nextPid (dt : ℚ) (env : Env) (g : Game) :
    (birdSpawnPhase dt env g).nextPid = g.nextPid := by
  simp only [birdSpawnPhase]
  split <;> rfl

/-- The bird-collision loop keeps the allocation counter. -/
lemma birdLoop_nextPid (dt : ℚ) (env : Env) :
    ∀ (bs : List Bird) (i : ℕ) (g : Game), ((birdLoop dt env i g bs).1).nextPid = g.nextPid := by
  intro bs
  induction bs with
  | nil => intro i g; rfl
  | cons b bs ih =>
      intro i g
      simp only [birdLoop]
      split
      · rw [ih]
        split <;> rfl
      · rw [ih]

/-- The bird phase keeps the allocation counter. -/
lemma birdMovePhase_nextPid (dt : ℚ) (env : Env) (g : Game) :
    (birdMovePhase dt env g).nextPid = g.nextPid := by
  simp only [birdMovePhase]
  exact birdLoop_nextPid dt env g.birds 0 g

/-- The decay phase keeps the allocation counter. -/
lemma xpDecayPhase_nextPid (dt : ℚ) (env : Env) (g : Game) :
    (xpDecayPhase dt env g).nextPid = g.nextPid := by
  simp only [xpDecayPhase]
  split
  · split <;> rfl
  · rfl

/-- The grounded phase keeps the allocation counter. -/
lemma groundedPhase_nextPid (dt : ℚ) (g : Game) (plats : List Platform) :
    (groundedPhase dt g plats).nextPid = g.nextPid := by
  simp only [groundedPhase]
  split
  · split
    · split <;> rfl
    · rfl
  · rfl

/-- The landing handler keeps the allocation counter. -/
lemma landBody_nextPid (env : Env) (g : Game) (p : Platform) :
    ((landBody env g p).1).nextPid = g.nextPid := by
  simp [landBody, apply_ite Game.nextPid]

/-- The landing scan keeps the allocation counter. -/
lemma landLoop_nextPid (dt : ℚ) (env : Env) :
    ∀ (ps : List Platform) (g : Game), ((landLoop dt env g ps).1).nextPid = g.nextPid := by
  intro ps
  induction ps with
  | nil => intro g; rfl
  | cons p ps ih =>
      intro g
      simp only [landLoop]
      split
      · rw [ih]
      · split
        · rw [ih]
        · split
          · rw [landBody_nextPid]
          · rw [ih]

/-- The trail step keeps the allocation counter. -/
lemma trailStep_nextPid (env : Env) (g : Game) : (trailStep env g).nextPid = g.nextPid := by
  simp only [trailStep]
  split <;> rfl

/-- The landing step keeps the allocation counter. -/
lemma landStep_nextPid (dt : ℚ) (env : Env) (g : Game) (plats : List Platform) :
    ((landStep dt env g plats).1).nextPid = g.nextPid := by
  simp only [landStep]
  split
  · split
    · rw [landLoop_nextPid]
    · rfl
  · rfl

/-- The fall check keeps the allocation counter. -/
lemma fallCheck_nextPid (g : Game) : (fallCheck g).nextPid = g.nextPid := by
  simp only [fallCheck]
  split <;> rfl

/-- The jumping block keeps the allocation counter. -/
lemma jumpBlock_nextPid (dt : ℚ) (env : Env) (g : Game) (plats : List Platform) :
    ((jumpBlock dt env g plats).1).nextPid = g.nextPid := by
  simp only [jumpBlock]
  split
  · rw [fallCheck_nextPid, landStep_nextPid, trailStep_nextPid]
  · rfl

/-- The camera phase keeps the allocation counter. -/
lemma cameraPhase_nextPid (dt : ℚ) (g : Game) : (cameraPhase dt g).nextPid = g.nextPid := by
  simp only [cameraPhase]
  split <;> rfl

/-- The particle phase keeps column and counter. -/
lemma particlePhase_platforms (dt : ℚ) (g : Game) :
    (particlePhase dt g).platforms = g.platforms ∧ (particlePhase dt g).nextPid = g.nextPid :=
  ⟨rfl, rfl⟩

/-- The landing-cue phase keeps column and counter. -/
lemma landingFxPhase_platforms (dt : ℚ) (g : Game) :
    (landingFxPhase dt g).platforms = g.platforms ∧ (landingFxPhase dt g).nextPid = g.nextPid := by
  simp only [landingFxPhase]
  split
  · split <;> exact ⟨rfl, rfl⟩
  · exact ⟨rfl, rfl⟩

/-- The flash phase keeps column and counter. -/
lemma flashPhase_platforms (dt : ℚ) (g : Game) :
    (flashPhase dt g).platforms = g.platforms ∧ (flashPhase dt g).nextPid = g.nextPid := by
  simp only [flashPhase]
  split <;> exact ⟨rfl, rfl⟩

/-- The power phase keeps the column. -/
lemma powerPhase_platforms (dt : ℚ) (g : Game) : (powerPhase dt g).platforms = g.platforms := by
  simp only [powerPhase]
  split <;> rfl

/-- One frame step preserves freshness of an absent identity: the step only
rewrites surviving platforms in place and allocates new ones at or above the
counter. -/
lemma update_pidFresh (dt : ℚ) (env : Env) (g : Game) (k : ℕ) (h : pidFresh k g) :
    pidFresh k (update dt env g) := by
  obtain ⟨habs, hk⟩ := h
  by_cases hg : g.state = GState.gameover
  · simp only [update, if_pos hg]
    exact ⟨habs, hk⟩
  · have h1 : ∀ q ∈ (powerPhase dt g).platforms.map (movePlat dt), q.pid ≠ k := by
      intro q hq
      rw [powerPhase_platforms] at hq
      rcases List.mem_map.mp hq with ⟨p0, hp0, rfl⟩
      rw [movePlat_pid]
      exact habs p0 hp0
    simp only [update, if_neg hg]
    constructor
    · intro q hq
      rw [(flashPhase_platforms dt _).1, (landingFxPhase_platforms dt _).1,
        (particlePhase_platforms dt _).1] at hq
      rcases worldMaint_pids env _ _ q hq with ⟨p, hp, hpid⟩ | hge
      · rcases jumpBlock_pids dt env _ _ p hp with ⟨p1, hp1, hpid1⟩
        rcases timedLoop_pids dt _ _ p1 hp1 with ⟨p2, hp2, hpid2⟩
        rw [hpid, hpid1, hpid2]
        exact h1 p2 hp2
      · simp only [cameraPhase_nextPid, jumpBlock_nextPid, groundedPhase_nextPid,
          xpDecayPhase_nextPid, birdMovePhase_nextPid, birdSpawnPhase_nextPid,
          timedLoop_nextPid, powerPhase_nextPid] at hge
        omega
    · rw [(flashPhase_platforms dt _).2, (landingFxPhase_platforms dt _).2,
        (particlePhase_platforms dt _).2]
      refine lt_of_lt_of_le ?_ (worldMaint_nextPid_ge env _ _)
      simp only [cameraPhase_nextPid, jumpBlock_nextPid, groundedPhase_nextPid,
        xpDecayPhase_nextPid, birdMovePhase_nextPid, birdSpawnPhase_nextPid,
        timedLoop_nextPid, powerPhase_nextPid]
      exact hk

/-- The begin-charge command keeps column and counter. -/
lemma startCharging_platforms (g : Game) :
    (startCharging g).platforms = g.platforms ∧ (startCharging g).nextPid = g.nextPid := by
  simp only [startCharging]
  split <;> exact ⟨rfl, rfl⟩

/-- The release-jump command preserves freshness of an absent identity: it
only filters the column (after flagging the fragile launch platform). -/
lemma releaseJump_pidFresh (env : Env) (g : Game) (k : ℕ) (h : pidFresh k g) :
    pidFresh k (releaseJump env g) := by
  obtain ⟨habs, hk⟩ := h
  simp only [releaseJump]
  split
  · exact ⟨habs, hk⟩
  · constructor
    · intro q hq
      simp only [apply_ite Game.platforms, ite_self] at hq
      rcases hmatch : g.egg.onPlatform.bind (findPlat g.platforms) with _ | p
      · rw [hmatch] at hq
        exact habs q hq
      · rw [hmatch] at hq
        simp only at hq
        split at hq
        · rcases List.mem_map.mp (List.mem_of_mem_filter hq) with ⟨q0, hq0, rfl⟩
          have hpid0 : (if q0.pid = p.pid then { q0 with removing := true } else q0).pid =
              q0.pid := by
            split <;> rfl
          rw [hpid0]
          exact habs q0 hq0
        · exact habs q hq
    · simp only [apply_ite Game.nextPid, ite_self]
      exact hk

/-- Reset allocates an entirely fresh column at or above the counter. -/
lemma initGame_pidFresh (env : Env) (g : Game) (k : ℕ) (h : pidFresh k g) :
    pidFresh k (initGame env g) := by
  obtain ⟨_, hk⟩ := h
  constructor
  · intro q hq
    simp only [initGame] at hq
    rcases List.mem_cons.mp hq with h1 | h2
    · rw [h1]
      show g.nextPid ≠ k
      omega
    · rcases List.mem_map.mp h2 with ⟨j, _, rfl⟩
      rw [createPlatform_pid]
      omega
  · simp only [initGame]
    omega

/-- The begin-charge command preserves freshness of an absent identity. -/
lemma startCharging_pidFresh (g : Game) (k : ℕ) (h : pidFresh k g) :
    pidFresh k (startCharging g) := by
  obtain ⟨habs, hk⟩ := h
  constructor
  · intro q hq
    rw [(startCharging_platforms g).1] at hq
    exact habs q hq
  · rw [(startCharging_platforms g).2]
    exact hk

/-- Every transition preserves freshness of an absent identity. -/
lemma applyOp_pidFresh (op : Op) (g : Game) (k : ℕ) (h : pidFresh k g) :
    pidFresh k (applyOp op g) := by
  cases op with
  | step dt env => exact update_pidFresh dt env g k h
  | charge => exact startCharging_pidFresh g k h
  | release env => exact releaseJump_pidFresh env g k h
  | reset env => exact initGame_pidFresh env g k h

/-- C5: a fragile platform is removed from the column by the very
release-jump command that launches off it, and — its identity staying below
the allocation counter — it never reappears in the column under any further
sequence of frame steps and commands. -/
theorem c5_fragile_permanent (env : Env) (g : Game) (k : ℕ) (p : Platform)
    (hst : g.state = GState.charging)
    (hon : g.egg.onPlatform = some k)
    (hfind : findPlat g.platforms k = some p)
    (hfrag : p.ptype = PType.fragile)
    (hk : k < g.nextPid) :
    ∀ ops : List Op, pidAbsent k (run ops (releaseJump env g)) := by
  have hpid : p.pid = k := by
    have := List.find?_some hfind
    simpa using this
  have h0 : pidFresh k (releaseJump env g) := by
    constructor
    · intro q hq
      have hn : ¬ g.state ≠ GState.charging := fun hc => hc hst
      simp only [releaseJump, if_neg hn, hon, Option.some_bind, hfind, hfrag,
        eq_self_iff_true, if_true, apply_ite Game.platforms, ite_self] at hq
      rcases List.mem_map.mp (List.mem_of_mem_filter hq) with ⟨q0, hq0, rfl⟩
      intro hqk
      by_cases hcase : q0.pid = p.pid
      · rw [if_pos hcase] at hq
        have := (List.mem_filter.mp hq).2
        simp at this
      · rw [if_neg hcase] at hqk
        exact hcase (hqk.trans hpid.symm)
    · have hn : ¬ g.state ≠ GState.charging := fun hc => hc hst
      simp only [releaseJump, if_neg hn, apply_ite Game.nextPid, ite_self]
      exact hk
  have hrun : ∀ (ops : List Op) (g' : Game), pidFresh k g' → pidFresh k (run ops g') := by
    intro ops
    induction ops with
    | nil => intro g' h; exact h
    | cons op ops ih =>
        intro g' h
        exact ih _ (applyOp_pidFresh op g' k h)
  exact fun ops => (hrun ops _ h0).1

/-- C5 (witness): jumping off the concrete fragile platform leaves its
identity absent from the column, and it is still absent after a further
frame step. -/
theorem c5_witness : pidAbsent 1 (run [Op.step 1 env0] (releaseJump env0 gFrag)) :=
  c5_fragile_permanent env0 gFrag 1 pFrag rfl rfl rfl rfl (by norm_num [gFrag])
    [Op.step 1 env0]


end JumpEgg
